import Mathlib

/-!
# System-role controllers

A shallow embedding of `src/api/controllers/system-role.controllers.js`: the five
Express handlers `addSystemRole`, `getAllSystemRoles`, `fetchSpecificSystemRole`,
`updateSystemRole` and `deleteSystemRole`.

Every handler is an `async` function of the shape

    try { <extract input>; <await one data-service call>; <branch on status> }
    catch (error) { logError(...); return res.status(SERVER_ERROR).json(...) }

The embedding keeps that shape.  JavaScript values are a small JSON-like datatype,
exceptions are the `error` side of `Except`, and the two effects of a handler (the
data-service invocation and the console log) are recorded in an explicit `World`
that is passed through the handler.
-/

namespace SystemRoleControllers

/-! ## JavaScript values -/

/-- JavaScript values as far as the handlers look at them.  Numbers are the integral
ones (status codes, lengths); objects are association lists in insertion order. -/
inductive JsVal where
  | undefined : JsVal
  | null : JsVal
  | bool (b : Bool) : JsVal
  | num (n : Int) : JsVal
  | str (s : String) : JsVal
  | arr (items : List JsVal) : JsVal
  | obj (fields : List (String × JsVal)) : JsVal

instance : Inhabited JsVal := ⟨JsVal.undefined⟩

/-- Own-property lookup in an object literal; a missing key reads as `undefined`. -/
def lookupField : List (String × JsVal) → String → JsVal
  | [], _ => JsVal.undefined
  | (k, v) :: rest, key => if k = key then v else lookupField rest key

/-- Number of UTF-16 code units of a string, which is what `.length` of a
JavaScript string returns. -/
def utf16Units (s : String) : Nat :=
  (s.data.map fun c => if c.val < 0x10000 then 1 else 2).sum

/-- Reading a property `v[key]` of a value that is neither `undefined` nor `null`.
Only the keys the handlers read matter: `status`, `data`, `error`, `_id`,
`systemRoleId` and `length`.  Primitives other than strings have none of them. -/
def JsVal.get (v : JsVal) (key : String) : JsVal :=
  match v with
  | JsVal.obj fields => lookupField fields key
  | JsVal.arr items => if key = "length" then JsVal.num items.length else JsVal.undefined
  | JsVal.str s => if key = "length" then JsVal.num (utf16Units s) else JsVal.undefined
  | _ => JsVal.undefined

/-- Whether a value is `undefined` or `null`. -/
def JsVal.isNullish : JsVal → Bool
  | JsVal.undefined => true
  | JsVal.null => true
  | _ => false

/-- The `TypeError` the runtime throws when a property of `undefined` or `null` is
read or destructured.  Its message text is engine specific and is left out. -/
def typeError : JsVal := JsVal.obj [("name", JsVal.str "TypeError")]

/-- Strict equality `v === c` against a number constant `c`. -/
def strictEqualsNumber (v : JsVal) (c : Int) : Bool :=
  match v with
  | JsVal.num n => n == c
  | _ => false

/-! ## Configuration -/

/-- Modelled from the spec: the constants of `HTTP_STATUS_CODES` in
`dependencies/config`, which is not part of the sources.  The spec gives the
codes as CREATED→201, SUCCESS→200, NOT_FOUND→404, CONFLICT→409,
SERVER_ERROR→500. -/
def SUCCESS : Int := 200

/-- Modelled from the spec: see `SUCCESS`. -/
def CREATED : Int := 201

/-- Modelled from the spec: see `SUCCESS`. -/
def NOT_FOUND : Int := 404

/-- Modelled from the spec: see `SUCCESS`. -/
def CONFLICT : Int := 409

/-- Modelled from the spec: see `SUCCESS`. -/
def SERVER_ERROR : Int := 500

/-! ## Requests, responses, effects -/

/-- The parts of the Express request the handlers read. -/
structure Request where
  body : JsVal
  params : JsVal
  tokenData : JsVal

/-- What `res.status(code).json(body)` sends. -/
structure Response where
  statusCode : Int
  body : JsVal

/-- What awaiting a data-service call gives: the resolved value, or the thrown
(rejected) value. -/
abbrev Outcome := Except JsVal JsVal

/-- The data services imported from `internal-services/system-role.services`.  They
are collaborators outside the sources, so the handlers take them as a parameter. -/
structure Services where
  saveSystemRole : JsVal → JsVal → Outcome
  findSystemRoles : JsVal → Outcome
  findSystemRoleById : JsVal → JsVal → Outcome
  findSystemRoleByIdAndUpdate : JsVal → JsVal → JsVal → JsVal → Outcome

/-- Names of the four data services. -/
inductive ServiceOp where
  | saveSystemRole
  | findSystemRoles
  | findSystemRoleById
  | findSystemRoleByIdAndUpdate
  deriving DecidableEq, Repr

/-- One data-service invocation: which service, with which arguments, and what
it gave back. -/
structure Invocation where
  op : ServiceOp
  args : List JsVal
  outcome : Outcome

/-- Severity of a console log entry. -/
inductive LogLevel where
  | warning
  | error
  deriving DecidableEq, Repr

/-- One entry of the console log: the level and the arguments of the call. -/
structure LogEntry where
  level : LogLevel
  args : List JsVal

/-- The state a handler acts on: the data-service invocations made so far and
the console log. -/
structure World where
  calls : List Invocation
  log : List LogEntry

/-- Computations of a `try` block: they read and extend the world and either
produce a value or throw. -/
def HandlerM (α : Type) : Type := World → Except JsVal α × World

/-- Sequencing; a thrown value skips the rest and keeps the world reached. -/
def HandlerM.bind {α β : Type} (m : HandlerM α) (f : α → HandlerM β) : HandlerM β :=
  fun w =>
    match m w with
    | (Except.ok a, w1) => f a w1
    | (Except.error e, w1) => (Except.error e, w1)

instance : Monad HandlerM where
  pure a := fun w => (Except.ok a, w)
  bind := HandlerM.bind

/-- Property access `v.key` and destructuring `const { key } = v`: throws a
`TypeError` on `undefined` and `null`, reads the property otherwise. -/
def getProp (v : JsVal) (key : String) : HandlerM JsVal :=
  fun w => (if v.isNullish then Except.error typeError else Except.ok (v.get key), w)

/-- Awaiting a data-service call: the invocation is recorded, its outcome is the
value of the `await` or is thrown. -/
def awaitService (op : ServiceOp) (args : List JsVal) (outcome : Outcome) : HandlerM JsVal :=
  fun w => (outcome, ⟨w.calls ++ [⟨op, args, outcome⟩], w.log⟩)

/-- Modelled from the spec: `logError` of `dependencies/helpers/console.helpers`,
which is not part of the sources.  One call emits one diagnostic log entry and
does not throw. -/
def logError (args : List JsVal) (w : World) : World :=
  ⟨w.calls, w.log ++ [⟨LogLevel.error, args⟩]⟩

/-- A statement that changes the world and cannot throw, inside a `try` block. -/
def perform (f : World → World) : HandlerM Unit :=
  fun w => (Except.ok (), f w)

/-- The statement `try { body } catch (error) { handler }` of a handler.  Both
blocks end in `return res.status(..).json(..)`, so the statement always yields the
response sent. -/
def tryCatchStmt (body : HandlerM Response) (handler : JsVal → World → Response × World)
    (w : World) : Response × World :=
  match body w with
  | (Except.ok r, w1) => (r, w1)
  | (Except.error e, w1) => handler e w1

/-- The projection string the handlers pass to the data service. -/
def projection : JsVal := JsVal.str "-__v"

/-! ## The handlers -/

/-- The `try` block of `addSystemRole` (source lines 16-78). -/
def addSystemRole.tryBlock (svc : Services) (req : Request) : HandlerM Response := do
  let _id ← getProp req.tokenData "_id"
  let envelope ← awaitService ServiceOp.saveSystemRole [req.body, _id]
    (svc.saveSystemRole req.body _id)
  let status ← getProp envelope "status"
  let data ← getProp envelope "data"
  let error ← getProp envelope "error"
  if strictEqualsNumber status SERVER_ERROR then
    perform (logError [JsVal.str "Requested operation failed. Unknown database error."])
    return ⟨SERVER_ERROR, JsVal.obj [
      ("hasError", JsVal.bool true),
      ("message", JsVal.str "ERROR: Requested operation failed."),
      ("error", JsVal.obj [("error", error)])]⟩
  else if strictEqualsNumber status CONFLICT then
    perform (logError [JsVal.str
      "Requested operation failed. System role with duplicate field(s) exists."])
    return ⟨CONFLICT, JsVal.obj [
      ("hasError", JsVal.bool true),
      ("message", JsVal.str "ERROR: Requested operation failed."),
      ("error", JsVal.obj [("error", error)])]⟩
  else
    return ⟨CREATED, JsVal.obj [
      ("hasError", JsVal.bool false),
      ("message", JsVal.str "SUCCESS: Requested operation successful."),
      ("data", JsVal.obj [("systemRole", data)])]⟩

/-- The `catch` block of `addSystemRole` (source lines 80-99). -/
def addSystemRole.catchBlock (error : JsVal) (w : World) : Response × World :=
  let w1 := logError
    [JsVal.str "ERROR @ addSystemRole -> system-role.controllers.js", error] w
  (⟨SERVER_ERROR, JsVal.obj [
    ("hasError", JsVal.bool true),
    ("message", JsVal.str "ERROR: Requested operation failed."),
    ("error", JsVal.obj [("error", JsVal.str "An unhandled exception occured on the server.")])]⟩, w1)

/-- Handler `addSystemRole`: creates a system role from the request body. -/
def addSystemRole (svc : Services) (req : Request) : World → Response × World :=
  tryCatchStmt (addSystemRole.tryBlock svc req) addSystemRole.catchBlock

/-- The `try` block of `getAllSystemRoles` (source lines 107-147). -/
def getAllSystemRoles.tryBlock (svc : Services) (_req : Request) : HandlerM Response := do
  let envelope ← awaitService ServiceOp.findSystemRoles [projection]
    (svc.findSystemRoles projection)
  let status ← getProp envelope "status"
  let data ← getProp envelope "data"
  let error ← getProp envelope "error"
  if strictEqualsNumber status SERVER_ERROR then
    perform (logError [JsVal.str "Requested operation failed. Unknown database error."])
    return ⟨SERVER_ERROR, JsVal.obj [
      ("hasError", JsVal.bool true),
      ("message", JsVal.str "ERROR: Requested operation failed."),
      ("error", JsVal.obj [("error", error)])]⟩
  else
    let length ← getProp data "length"
    return ⟨SUCCESS, JsVal.obj [
      ("hasError", JsVal.bool false),
      ("message", JsVal.str "SUCCESS: Requested operation successful."),
      ("data", JsVal.obj [("totalSystemRoles", length), ("systemRoles", data)])]⟩

/-- The `catch` block of `getAllSystemRoles` (source lines 149-168). -/
def getAllSystemRoles.catchBlock (error : JsVal) (w : World) : Response × World :=
  let w1 := logError
    [JsVal.str "ERROR @ getAllSystemRoles -> system-role.controllers.js", error] w
  (⟨SERVER_ERROR, JsVal.obj [
    ("hasError", JsVal.bool true),
    ("message", JsVal.str "ERROR: Requested operation failed."),
    ("error", JsVal.obj [("error", JsVal.str "An unexpected error occurred on the server.")])]⟩, w1)

/-- Handler `getAllSystemRoles`: returns all system roles as an array. -/
def getAllSystemRoles (svc : Services) (req : Request) : World → Response × World :=
  tryCatchStmt (getAllSystemRoles.tryBlock svc req) getAllSystemRoles.catchBlock

/-- The `try` block of `fetchSpecificSystemRole` (source lines 176-238). -/
def fetchSpecificSystemRole.tryBlock (svc : Services) (req : Request) :
    HandlerM Response := do
  let systemRoleId ← getProp req.params "systemRoleId"
  let envelope ← awaitService ServiceOp.findSystemRoleById [systemRoleId, projection]
    (svc.findSystemRoleById systemRoleId projection)
  let status ← getProp envelope "status"
  let data ← getProp envelope "data"
  let error ← getProp envelope "error"
  if strictEqualsNumber status SERVER_ERROR then
    perform (logError [JsVal.str "Requested operation failed. Unknown database error."])
    return ⟨SERVER_ERROR, JsVal.obj [
      ("hasError", JsVal.bool true),
      ("message", JsVal.str "ERROR: Requested operation failed."),
      ("error", JsVal.obj [("error", error)])]⟩
  else if strictEqualsNumber status NOT_FOUND then
    perform (logError [JsVal.str "Requested operation failed. System Role not found."])
    return ⟨NOT_FOUND, JsVal.obj [
      ("hasError", JsVal.bool true),
      ("message", JsVal.str "ERROR: Requested operation failed."),
      ("error", JsVal.obj [("error", error)])]⟩
  else
    return ⟨SUCCESS, JsVal.obj [
      ("hasError", JsVal.bool false),
      ("message", JsVal.str "SUCCESS: Requested operation successful."),
      ("data", JsVal.obj [("systemRole", data)])]⟩

/-- The `catch` block of `fetchSpecificSystemRole` (source lines 240-259). -/
def fetchSpecificSystemRole.catchBlock (error : JsVal) (w : World) : Response × World :=
  let w1 := logError
    [JsVal.str "ERROR @ fetchSpecificSystemRole -> system-role.controllers.js", error] w
  (⟨SERVER_ERROR, JsVal.obj [
    ("hasError", JsVal.bool true),
    ("message", JsVal.str "ERROR: Requested operation failed."),
    ("error", JsVal.obj [("error", JsVal.str "An unexpected error occurred on the server.")])]⟩, w1)

/-- Handler `fetchSpecificSystemRole`: returns the system role with the id of the path. -/
def fetchSpecificSystemRole (svc : Services) (req : Request) : World → Response × World :=
  tryCatchStmt (fetchSpecificSystemRole.tryBlock svc req) fetchSpecificSystemRole.catchBlock

/-- The `try` block of `updateSystemRole` (source lines 267-329). -/
def updateSystemRole.tryBlock (svc : Services) (req : Request) : HandlerM Response := do
  let systemRoleId ← getProp req.params "systemRoleId"
  let envelope ← awaitService ServiceOp.findSystemRoleByIdAndUpdate
    [systemRoleId, req.body, req.tokenData, projection]
    (svc.findSystemRoleByIdAndUpdate systemRoleId req.body req.tokenData projection)
  let status ← getProp envelope "status"
  let data ← getProp envelope "data"
  let error ← getProp envelope "error"
  if strictEqualsNumber status SERVER_ERROR then
    perform (logError [JsVal.str "Requested operation failed. Unknown database error."])
    return ⟨SERVER_ERROR, JsVal.obj [
      ("hasError", JsVal.bool true),
      ("message", JsVal.str "ERROR: Requested operation failed."),
      ("error", JsVal.obj [("error", error)])]⟩
  else if strictEqualsNumber status NOT_FOUND then
    perform (logError [JsVal.str "Requested operation failed. System role not found."])
    return ⟨NOT_FOUND, JsVal.obj [
      ("hasError", JsVal.bool true),
      ("message", JsVal.str "ERROR: Requested operation failed. System role not found."),
      ("error", JsVal.obj [("error", error)])]⟩
  else
    return ⟨SUCCESS, JsVal.obj [
      ("hasError", JsVal.bool false),
      ("message", JsVal.str "SUCCESS: Requested operation successful."),
      ("data", JsVal.obj [("systemRole", data)])]⟩

/-- The `catch` block of `updateSystemRole` (source lines 331-350). -/
def updateSystemRole.catchBlock (error : JsVal) (w : World) : Response × World :=
  let w1 := logError
    [JsVal.str "ERROR @ updateSystemRole -> system-role.controllers.js", error] w
  (⟨SERVER_ERROR, JsVal.obj [
    ("hasError", JsVal.bool true),
    ("message", JsVal.str "ERROR: Requested operation failed."),
    ("error", JsVal.obj [("error", JsVal.str "An unexpected error occurred on the server.")])]⟩, w1)

/-- Handler `updateSystemRole`: updates the system role with the id of the path. -/
def updateSystemRole (svc : Services) (req : Request) : World → Response × World :=
  tryCatchStmt (updateSystemRole.tryBlock svc req) updateSystemRole.catchBlock

/-- The `try` block of `deleteSystemRole` (source lines 358-427). -/
def deleteSystemRole.tryBlock (svc : Services) (req : Request) : HandlerM Response := do
  let systemRoleId ← getProp req.params "systemRoleId"
  let updateObj := JsVal.obj [("isDeleted", JsVal.bool true)]
  let envelope ← awaitService ServiceOp.findSystemRoleByIdAndUpdate
    [systemRoleId, updateObj, req.tokenData, projection]
    (svc.findSystemRoleByIdAndUpdate systemRoleId updateObj req.tokenData projection)
  let status ← getProp envelope "status"
  let _data ← getProp envelope "data"
  let error ← getProp envelope "error"
  if strictEqualsNumber status SERVER_ERROR then
    perform (logError [JsVal.str "Requested operation failed. Unknown database error."])
    return ⟨SERVER_ERROR, JsVal.obj [
      ("hasError", JsVal.bool true),
      ("message", JsVal.str "ERROR: Requested operation failed."),
      ("error", JsVal.obj [("error", error)])]⟩
  else if strictEqualsNumber status NOT_FOUND then
    perform (logError [JsVal.str "Requested operation failed. System role not found."])
    return ⟨NOT_FOUND, JsVal.obj [
      ("hasError", JsVal.bool true),
      ("message", JsVal.str "ERROR: Requested operation failed. System role not found."),
      ("error", JsVal.obj [("error", error)])]⟩
  else
    return ⟨SUCCESS, JsVal.obj [
      ("hasError", JsVal.bool false),
      ("message", JsVal.str "SUCCESS: Requested operation successful."),
      ("data", JsVal.obj [("systemRole", systemRoleId)])]⟩

/-- The `catch` block of `deleteSystemRole` (source lines 429-448). -/
def deleteSystemRole.catchBlock (error : JsVal) (w : World) : Response × World :=
  let w1 := logError
    [JsVal.str "ERROR @ deleteSystemRole -> system-role.controllers.js", error] w
  (⟨SERVER_ERROR, JsVal.obj [
    ("hasError", JsVal.bool true),
    ("message", JsVal.str "ERROR: Requested operation failed."),
    ("error", JsVal.obj [("error", JsVal.str "An unexpected error occurred on the server.")])]⟩, w1)

/-- Handler `deleteSystemRole`: soft-deletes the system role with the id of the path. -/
def deleteSystemRole (svc : Services) (req : Request) : World → Response × World :=
  tryCatchStmt (deleteSystemRole.tryBlock svc req) deleteSystemRole.catchBlock

/-! ## The five handlers as one family -/

/-- The handlers the module exports. -/
inductive Handler where
  | addSystemRole
  | getAllSystemRoles
  | fetchSpecificSystemRole
  | updateSystemRole
  | deleteSystemRole
  deriving DecidableEq, Repr

/-- The `try` block of a handler. -/
def Handler.tryBlock : Handler → Services → Request → HandlerM Response
  | Handler.addSystemRole => addSystemRole.tryBlock
  | Handler.getAllSystemRoles => getAllSystemRoles.tryBlock
  | Handler.fetchSpecificSystemRole => fetchSpecificSystemRole.tryBlock
  | Handler.updateSystemRole => updateSystemRole.tryBlock
  | Handler.deleteSystemRole => deleteSystemRole.tryBlock

/-- Running a handler on a request in a world: the response sent and the world
after it. -/
def Handler.run : Handler → Services → Request → World → Response × World
  | Handler.addSystemRole => SystemRoleControllers.addSystemRole
  | Handler.getAllSystemRoles => SystemRoleControllers.getAllSystemRoles
  | Handler.fetchSpecificSystemRole => SystemRoleControllers.fetchSpecificSystemRole
  | Handler.updateSystemRole => SystemRoleControllers.updateSystemRole
  | Handler.deleteSystemRole => SystemRoleControllers.deleteSystemRole

/-- The `catch` block of a handler. -/
def Handler.catchBlock : Handler → JsVal → World → Response × World
  | Handler.addSystemRole => addSystemRole.catchBlock
  | Handler.getAllSystemRoles => getAllSystemRoles.catchBlock
  | Handler.fetchSpecificSystemRole => fetchSpecificSystemRole.catchBlock
  | Handler.updateSystemRole => updateSystemRole.catchBlock
  | Handler.deleteSystemRole => deleteSystemRole.catchBlock

/-! ## Observations on a run -/

/-- The world after one more data-service invocation. -/
def World.invoked (w : World) (c : Invocation) : World := ⟨w.calls ++ [c], w.log⟩

/-- What a `try`/`catch` statement makes of the result of its `try` block. -/
def settle (handler : JsVal → World → Response × World) :
    Except JsVal Response × World → Response × World
  | (Except.ok r, w1) => (r, w1)
  | (Except.error e, w1) => handler e w1

/-- Field `hasError` of the response body. -/
def Response.hasError (r : Response) : JsVal := r.body.get "hasError"

/-- Field `message` of the response body. -/
def Response.message (r : Response) : JsVal := r.body.get "message"

/-- Field `data` of the response body. -/
def Response.data (r : Response) : JsVal := r.body.get "data"

/-- Field `error` of the response body. -/
def Response.error (r : Response) : JsVal := r.body.get "error"

/-- The value the `try` block of a handler throws in a run, if it throws: the
`catch` block is entered exactly when this is `some e`. -/
def Handler.thrown (h : Handler) (svc : Services) (req : Request) (w : World) :
    Option JsVal :=
  match (h.tryBlock svc req w).1 with
  | Except.error e => some e
  | Except.ok _ => none

/-- In this run the handler called the data service and the call resolved to
`envelope`: the run added exactly one invocation to the world, with that outcome. -/
def Handler.serviceReturned (h : Handler) (svc : Services) (req : Request) (w : World)
    (envelope : JsVal) : Prop :=
  ∃ op args, (h.run svc req w).2.calls = w.calls ++ [⟨op, args, Except.ok envelope⟩]

/-- The statuses a handler compares the envelope status against: the conditions
of its `if` / `else if` chain, each answered with a failure response. -/
def Handler.recognisedFailures : Handler → List Int
  | Handler.addSystemRole => [SERVER_ERROR, CONFLICT]
  | Handler.getAllSystemRoles => [SERVER_ERROR]
  | Handler.fetchSpecificSystemRole => [SERVER_ERROR, NOT_FOUND]
  | Handler.updateSystemRole => [SERVER_ERROR, NOT_FOUND]
  | Handler.deleteSystemRole => [SERVER_ERROR, NOT_FOUND]

/-- The status code of the success response of a handler, the one after its
`if` / `else if` chain. -/
def Handler.successCode : Handler → Int
  | Handler.addSystemRole => CREATED
  | _ => SUCCESS

/-! ## Sample inputs -/

/-- Data services that answer every call with the same outcome. -/
def Services.always (o : Outcome) : Services :=
  ⟨fun _ _ => o, fun _ => o, fun _ _ => o, fun _ _ _ _ => o⟩

/-- The world before any request. -/
def World.empty : World := ⟨[], []⟩

/-- A request with a body, a path id and token data. -/
def sampleRequest : Request :=
  ⟨JsVal.obj [("name", JsVal.str "Admin")],
   JsVal.obj [("systemRoleId", JsVal.str "64b7f0")],
   JsVal.obj [("_id", JsVal.str "u1")]⟩

/-- An envelope with the given status, data and error. -/
def envelopeOf (status : Int) (data error : JsVal) : JsVal :=
  JsVal.obj [("status", JsVal.num status), ("data", data), ("error", error)]

/-! # Properties -/

/-! ## Facts about values -/

theorem JsVal.not_nullish_of_get_num (v : JsVal) (k : String) (n : Int)
    (h : v.get k = JsVal.num n) : v.isNullish = false := by
  cases v <;> simp [JsVal.get, JsVal.isNullish] at h ⊢

theorem strictEqualsNumber_num (n c : Int) :
    strictEqualsNumber (JsVal.num n) c = decide (n = c) := by
  by_cases hnc : n = c <;> simp [strictEqualsNumber, hnc]

theorem JsVal.get_obj (fields : List (String × JsVal)) (key : String) :
    (JsVal.obj fields).get key = lookupField fields key := rfl

theorem strictEqualsNumber_iff (v : JsVal) (c : Int) :
    strictEqualsNumber v c = true ↔ v = JsVal.num c := by
  cases v <;> simp [strictEqualsNumber]

theorem JsVal.get_of_nullish (v : JsVal) (k : String) (h : v.isNullish = true) :
    v.get k = JsVal.undefined := by
  cases v <;> simp [JsVal.get, JsVal.isNullish] at h ⊢

/-! ## How the handler computations run -/

theorem bind_run {α β : Type} (m : HandlerM α) (f : α → HandlerM β) (w : World) :
    (m >>= f) w = (match m w with
      | (Except.ok a, w1) => f a w1
      | (Except.error e, w1) => (Except.error e, w1)) := rfl

theorem pure_run {α : Type} (a : α) (w : World) :
    (pure a : HandlerM α) w = (Except.ok a, w) := rfl

theorem getProp_run (v : JsVal) (k : String) (w : World) :
    getProp v k w =
      (if v.isNullish then Except.error typeError else Except.ok (v.get k), w) := rfl

/-- The `try` block of `addSystemRole` written out path by path. -/
theorem addSystemRole_tryBlock_eq (svc : Services) (req : Request) (w : World) :
    addSystemRole.tryBlock svc req w =
      if req.tokenData.isNullish then (Except.error typeError, w)
      else
        let w1 := w.invoked ⟨ServiceOp.saveSystemRole,
          [req.body, req.tokenData.get "_id"],
          svc.saveSystemRole req.body (req.tokenData.get "_id")⟩
        match svc.saveSystemRole req.body (req.tokenData.get "_id") with
        | Except.error e => (Except.error e, w1)
        | Except.ok envelope =>
          if envelope.isNullish then (Except.error typeError, w1)
          else if strictEqualsNumber (envelope.get "status") SERVER_ERROR then
            (Except.ok ⟨SERVER_ERROR, JsVal.obj [
              ("hasError", JsVal.bool true),
              ("message", JsVal.str "ERROR: Requested operation failed."),
              ("error", JsVal.obj [("error", envelope.get "error")])]⟩,
             logError [JsVal.str "Requested operation failed. Unknown database error."] w1)
          else if strictEqualsNumber (envelope.get "status") CONFLICT then
            (Except.ok ⟨CONFLICT, JsVal.obj [
              ("hasError", JsVal.bool true),
              ("message", JsVal.str "ERROR: Requested operation failed."),
              ("error", JsVal.obj [("error", envelope.get "error")])]⟩,
             logError [JsVal.str
               "Requested operation failed. System role with duplicate field(s) exists."] w1)
          else
            (Except.ok ⟨CREATED, JsVal.obj [
              ("hasError", JsVal.bool false),
              ("message", JsVal.str "SUCCESS: Requested operation successful."),
              ("data", JsVal.obj [("systemRole", envelope.get "data")])]⟩, w1) := by
  simp only [addSystemRole.tryBlock, bind_run, getProp_run, awaitService, World.invoked]
  cases hx : req.tokenData.isNullish with
  | true => simp
  | false =>
    cases ho : svc.saveSystemRole req.body (req.tokenData.get "_id") with
    | error e => simp [ho]
    | ok envelope =>
      cases hn : envelope.isNullish with
      | true => simp [ho, hn]
      | false =>
        simp only [Bool.false_eq_true, if_false, ho, hn]
        split_ifs <;> simp [bind_run, pure_run, perform]

/-- The `try` block of `getAllSystemRoles` written out path by path. -/
theorem getAllSystemRoles_tryBlock_eq (svc : Services) (req : Request) (w : World) :
    getAllSystemRoles.tryBlock svc req w =
        let w1 := w.invoked ⟨ServiceOp.findSystemRoles,
          [projection],
          svc.findSystemRoles projection⟩
        match svc.findSystemRoles projection with
        | Except.error e => (Except.error e, w1)
        | Except.ok envelope =>
          if envelope.isNullish then (Except.error typeError, w1)
          else if strictEqualsNumber (envelope.get "status") SERVER_ERROR then
            (Except.ok ⟨SERVER_ERROR, JsVal.obj [
              ("hasError", JsVal.bool true),
              ("message", JsVal.str "ERROR: Requested operation failed."),
              ("error", JsVal.obj [("error", envelope.get "error")])]⟩,
             logError [JsVal.str "Requested operation failed. Unknown database error."] w1)
          else if (envelope.get "data").isNullish then (Except.error typeError, w1)
          else
            (Except.ok ⟨SUCCESS, JsVal.obj [
              ("hasError", JsVal.bool false),
              ("message", JsVal.str "SUCCESS: Requested operation successful."),
              ("data", JsVal.obj [
                ("totalSystemRoles", (envelope.get "data").get "length"),
                ("systemRoles", envelope.get "data")])]⟩, w1) := by
  simp only [getAllSystemRoles.tryBlock, bind_run, getProp_run, awaitService, World.invoked]
  cases ho : svc.findSystemRoles projection with
  | error e => simp [ho]
  | ok envelope =>
    cases hn : envelope.isNullish with
    | true => simp [ho, hn]
    | false =>
      simp only [Bool.false_eq_true, if_false, ho, hn]
      split_ifs <;> simp_all [bind_run, pure_run, perform, getProp_run]

/-- The `try` block of `fetchSpecificSystemRole` written out path by path. -/
theorem fetchSpecificSystemRole_tryBlock_eq (svc : Services) (req : Request) (w : World) :
    fetchSpecificSystemRole.tryBlock svc req w =
      if req.params.isNullish then (Except.error typeError, w)
      else
        let w1 := w.invoked ⟨ServiceOp.findSystemRoleById,
          [req.params.get "systemRoleId", projection],
          svc.findSystemRoleById (req.params.get "systemRoleId") projection⟩
        match svc.findSystemRoleById (req.params.get "systemRoleId") projection with
        | Except.error e => (Except.error e, w1)
        | Except.ok envelope =>
          if envelope.isNullish then (Except.error typeError, w1)
          else if strictEqualsNumber (envelope.get "status") SERVER_ERROR then
            (Except.ok ⟨SERVER_ERROR, JsVal.obj [
              ("hasError", JsVal.bool true),
              ("message", JsVal.str "ERROR: Requested operation failed."),
              ("error", JsVal.obj [("error", envelope.get "error")])]⟩,
             logError [JsVal.str "Requested operation failed. Unknown database error."] w1)
          else if strictEqualsNumber (envelope.get "status") NOT_FOUND then
            (Except.ok ⟨NOT_FOUND, JsVal.obj [
              ("hasError", JsVal.bool true),
              ("message", JsVal.str "ERROR: Requested operation failed."),
              ("error", JsVal.obj [("error", envelope.get "error")])]⟩,
             logError [JsVal.str "Requested operation failed. System Role not found."] w1)
          else
            (Except.ok ⟨SUCCESS, JsVal.obj [
              ("hasError", JsVal.bool false),
              ("message", JsVal.str "SUCCESS: Requested operation successful."),
              ("data", JsVal.obj [("systemRole", envelope.get "data")])]⟩, w1) := by
  simp only [fetchSpecificSystemRole.tryBlock, bind_run, getProp_run, awaitService, World.invoked]
  cases hx : req.params.isNullish with
  | true => simp
  | false =>
    cases ho : svc.findSystemRoleById (req.params.get "systemRoleId") projection with
    | error e => simp [ho]
    | ok envelope =>
      cases hn : envelope.isNullish with
      | true => simp [ho, hn]
      | false =>
        simp only [Bool.false_eq_true, if_false, ho, hn]
        split_ifs <;> simp [bind_run, pure_run, perform]

/-- The `try` block of `updateSystemRole` written out path by path. -/
theorem updateSystemRole_tryBlock_eq (svc : Services) (req : Request) (w : World) :
    updateSystemRole.tryBlock svc req w =
      if req.params.isNullish then (Except.error typeError, w)
      else
        let w1 := w.invoked ⟨ServiceOp.findSystemRoleByIdAndUpdate,
          [req.params.get "systemRoleId", req.body, req.tokenData, projection],
          svc.findSystemRoleByIdAndUpdate (req.params.get "systemRoleId") req.body
            req.tokenData projection⟩
        match svc.findSystemRoleByIdAndUpdate (req.params.get "systemRoleId") req.body
            req.tokenData projection with
        | Except.error e => (Except.error e, w1)
        | Except.ok envelope =>
          if envelope.isNullish then (Except.error typeError, w1)
          else if strictEqualsNumber (envelope.get "status") SERVER_ERROR then
            (Except.ok ⟨SERVER_ERROR, JsVal.obj [
              ("hasError", JsVal.bool true),
              ("message", JsVal.str "ERROR: Requested operation failed."),
              ("error", JsVal.obj [("error", envelope.get "error")])]⟩,
             logError [JsVal.str "Requested operation failed. Unknown database error."] w1)
          else if strictEqualsNumber (envelope.get "status") NOT_FOUND then
            (Except.ok ⟨NOT_FOUND, JsVal.obj [
              ("hasError", JsVal.bool true),
              ("message", JsVal.str "ERROR: Requested operation failed. System role not found."),
              ("error", JsVal.obj [("error", envelope.get "error")])]⟩,
             logError [JsVal.str "Requested operation failed. System role not found."] w1)
          else
            (Except.ok ⟨SUCCESS, JsVal.obj [
              ("hasError", JsVal.bool false),
              ("message", JsVal.str "SUCCESS: Requested operation successful."),
              ("data", JsVal.obj [("systemRole", envelope.get "data")])]⟩, w1) := by
  simp only [updateSystemRole.tryBlock, bind_run, getProp_run, awaitService, World.invoked]
  cases hx : req.params.isNullish with
  | true => simp
  | false =>
    cases ho : svc.findSystemRoleByIdAndUpdate (req.params.get "systemRoleId") req.body
        req.tokenData projection with
    | error e => simp [ho]
    | ok envelope =>
      cases hn : envelope.isNullish with
      | true => simp [ho, hn]
      | false =>
        simp only [Bool.false_eq_true, if_false, ho, hn]
        split_ifs <;> simp [bind_run, pure_run, perform]

/-- The `try` block of `deleteSystemRole` written out path by path. -/
theorem deleteSystemRole_tryBlock_eq (svc : Services) (req : Request) (w : World) :
    deleteSystemRole.tryBlock svc req w =
      if req.params.isNullish then (Except.error typeError, w)
      else
        let w1 := w.invoked ⟨ServiceOp.findSystemRoleByIdAndUpdate,
          [req.params.get "systemRoleId", JsVal.obj [("isDeleted", JsVal.bool true)],
            req.tokenData, projection],
          svc.findSystemRoleByIdAndUpdate (req.params.get "systemRoleId")
            (JsVal.obj [("isDeleted", JsVal.bool true)]) req.tokenData projection⟩
        match svc.findSystemRoleByIdAndUpdate (req.params.get "systemRoleId")
            (JsVal.obj [("isDeleted", JsVal.bool true)]) req.tokenData projection with
        | Except.error e => (Except.error e, w1)
        | Except.ok envelope =>
          if envelope.isNullish then (Except.error typeError, w1)
          else if strictEqualsNumber (envelope.get "status") SERVER_ERROR then
            (Except.ok ⟨SERVER_ERROR, JsVal.obj [
              ("hasError", JsVal.bool true),
              ("message", JsVal.str "ERROR: Requested operation failed."),
              ("error", JsVal.obj [("error", envelope.get "error")])]⟩,
             logError [JsVal.str "Requested operation failed. Unknown database error."] w1)
          else if strictEqualsNumber (envelope.get "status") NOT_FOUND then
            (Except.ok ⟨NOT_FOUND, JsVal.obj [
              ("hasError", JsVal.bool true),
              ("message", JsVal.str "ERROR: Requested operation failed. System role not found."),
              ("error", JsVal.obj [("error", envelope.get "error")])]⟩,
             logError [JsVal.str "Requested operation failed. System role not found."] w1)
          else
            (Except.ok ⟨SUCCESS, JsVal.obj [
              ("hasError", JsVal.bool false),
              ("message", JsVal.str "SUCCESS: Requested operation successful."),
              ("data", JsVal.obj [("systemRole", req.params.get "systemRoleId")])]⟩, w1) := by
  simp only [deleteSystemRole.tryBlock, bind_run, getProp_run, awaitService, World.invoked]
  cases hx : req.params.isNullish with
  | true => simp
  | false =>
    cases ho : svc.findSystemRoleByIdAndUpdate (req.params.get "systemRoleId")
        (JsVal.obj [("isDeleted", JsVal.bool true)]) req.tokenData projection with
    | error e => simp [ho]
    | ok envelope =>
      cases hn : envelope.isNullish with
      | true => simp [ho, hn]
      | false =>
        simp only [Bool.false_eq_true, if_false, ho, hn]
        split_ifs <;> simp [bind_run, pure_run, perform]

theorem tryCatchStmt_eq_settle (body : HandlerM Response)
    (handler : JsVal → World → Response × World) (w : World) :
    tryCatchStmt body handler w = settle handler (body w) := by
  unfold tryCatchStmt settle
  rfl

theorem Handler.run_eq (h : Handler) (svc : Services) (req : Request) (w : World) :
    h.run svc req w = settle h.catchBlock (h.tryBlock svc req w) := by
  cases h <;> exact tryCatchStmt_eq_settle _ _ _

/-- What `serviceReturned` says about the request and the data service, handler by
handler: input extraction did not throw and the call resolved to the envelope. -/
theorem Handler.serviceReturned_elim (h : Handler) (svc : Services) (req : Request)
    (w : World) (envelope : JsVal) (hret : h.serviceReturned svc req w envelope) :
    match h with
    | Handler.addSystemRole =>
        req.tokenData.isNullish = false ∧
        svc.saveSystemRole req.body (req.tokenData.get "_id") = Except.ok envelope
    | Handler.getAllSystemRoles =>
        True ∧ svc.findSystemRoles projection = Except.ok envelope
    | Handler.fetchSpecificSystemRole =>
        req.params.isNullish = false ∧
        svc.findSystemRoleById (req.params.get "systemRoleId") projection = Except.ok envelope
    | Handler.updateSystemRole =>
        req.params.isNullish = false ∧
        svc.findSystemRoleByIdAndUpdate (req.params.get "systemRoleId") req.body
          req.tokenData projection = Except.ok envelope
    | Handler.deleteSystemRole =>
        req.params.isNullish = false ∧
        svc.findSystemRoleByIdAndUpdate (req.params.get "systemRoleId")
          (JsVal.obj [("isDeleted", JsVal.bool true)]) req.tokenData projection
          = Except.ok envelope := by
  obtain ⟨op, args, hc⟩ := hret
  rw [Handler.run_eq] at hc
  cases h
  case addSystemRole =>
    simp only [Handler.tryBlock, Handler.catchBlock, addSystemRole_tryBlock_eq] at hc
    cases hx : req.tokenData.isNullish with
    | true => simp [hx, settle, addSystemRole.catchBlock, logError] at hc
    | false =>
      refine ⟨rfl, ?_⟩
      cases ho : svc.saveSystemRole req.body (req.tokenData.get "_id") with
      | error e =>
        simp [hx, ho, settle, addSystemRole.catchBlock, logError, World.invoked] at hc
      | ok env =>
        simp only [hx, ho, Bool.false_eq_true, if_false] at hc
        split_ifs at hc <;>
        simp [settle, addSystemRole.catchBlock, logError, World.invoked] at hc <;>
        simp [hc]
  case getAllSystemRoles =>
    simp only [Handler.tryBlock, Handler.catchBlock, getAllSystemRoles_tryBlock_eq] at hc
    refine ⟨trivial, ?_⟩
    cases ho : svc.findSystemRoles projection with
    | error e =>
      simp [ho, settle, getAllSystemRoles.catchBlock, logError, World.invoked] at hc
    | ok env =>
      simp only [ho] at hc
      split_ifs at hc <;>
      simp [settle, getAllSystemRoles.catchBlock, logError, World.invoked] at hc <;>
      simp [hc]
  case fetchSpecificSystemRole =>
    simp only [Handler.tryBlock, Handler.catchBlock, fetchSpecificSystemRole_tryBlock_eq] at hc
    cases hx : req.params.isNullish with
    | true => simp [hx, settle, fetchSpecificSystemRole.catchBlock, logError] at hc
    | false =>
      refine ⟨rfl, ?_⟩
      cases ho : svc.findSystemRoleById (req.params.get "systemRoleId") projection with
      | error e =>
        simp [hx, ho, settle, fetchSpecificSystemRole.catchBlock, logError, World.invoked] at hc
      | ok env =>
        simp only [hx, ho, Bool.false_eq_true, if_false] at hc
        split_ifs at hc <;>
        simp [settle, fetchSpecificSystemRole.catchBlock, logError, World.invoked] at hc <;>
        simp [hc]
  case updateSystemRole =>
    simp only [Handler.tryBlock, Handler.catchBlock, updateSystemRole_tryBlock_eq] at hc
    cases hx : req.params.isNullish with
    | true => simp [hx, settle, updateSystemRole.catchBlock, logError] at hc
    | false =>
      refine ⟨rfl, ?_⟩
      cases ho : svc.findSystemRoleByIdAndUpdate (req.params.get "systemRoleId") req.body
          req.tokenData projection with
      | error e =>
        simp [hx, ho, settle, updateSystemRole.catchBlock, logError, World.invoked] at hc
      | ok env =>
        simp only [hx, ho, Bool.false_eq_true, if_false] at hc
        split_ifs at hc <;>
        simp [settle, updateSystemRole.catchBlock, logError, World.invoked] at hc <;>
        simp [hc]
  case deleteSystemRole =>
    simp only [Handler.tryBlock, Handler.catchBlock, deleteSystemRole_tryBlock_eq] at hc
    cases hx : req.params.isNullish with
    | true => simp [hx, settle, deleteSystemRole.catchBlock, logError] at hc
    | false =>
      refine ⟨rfl, ?_⟩
      cases ho : svc.findSystemRoleByIdAndUpdate (req.params.get "systemRoleId")
          (JsVal.obj [("isDeleted", JsVal.bool true)]) req.tokenData projection with
      | error e =>
        simp [hx, ho, settle, deleteSystemRole.catchBlock, logError, World.invoked] at hc
      | ok env =>
        simp only [hx, ho, Bool.false_eq_true, if_false] at hc
        split_ifs at hc <;>
        simp [settle, deleteSystemRole.catchBlock, logError, World.invoked] at hc <;>
        simp [hc]

/-- Every run ends in one of two shapes: a failure response (code 404, 409 or 500,
`hasError: true`, an `error` object) with one more log entry, or a success response
(code 200 or 201, `hasError: false`, a `data` field) with the log unchanged. -/
theorem Handler.run_cases (h : Handler) (svc : Services) (req : Request) (w : World) :
    (∃ (code : Int) (msg : String) (e : JsVal) (entry : LogEntry),
      (code = NOT_FOUND ∨ code = CONFLICT ∨ code = SERVER_ERROR) ∧
      (h.run svc req w).1 = ⟨code, JsVal.obj [
        ("hasError", JsVal.bool true),
        ("message", JsVal.str msg),
        ("error", JsVal.obj [("error", e)])]⟩ ∧
      (h.run svc req w).2.log = w.log ++ [entry]) ∨
    (∃ (code : Int) (msg : String) (d : JsVal),
      (code = SUCCESS ∨ code = CREATED) ∧
      (h.run svc req w).1 = ⟨code, JsVal.obj [
        ("hasError", JsVal.bool false),
        ("message", JsVal.str msg),
        ("data", d)]⟩ ∧
      (h.run svc req w).2.log = w.log) := by
  rw [Handler.run_eq]
  cases h <;>
  simp only [Handler.tryBlock, Handler.catchBlock, addSystemRole_tryBlock_eq,
    getAllSystemRoles_tryBlock_eq, fetchSpecificSystemRole_tryBlock_eq,
    updateSystemRole_tryBlock_eq, deleteSystemRole_tryBlock_eq] <;>
  (repeat' split) <;>
  first
  | exact Or.inl ⟨_, _, _, _, by decide, rfl, rfl⟩
  | exact Or.inr ⟨_, _, _, by decide, rfl, rfl⟩

/-- The `catch` block leaves the invocations of the world as they are. -/
theorem Handler.run_calls (h : Handler) (svc : Services) (req : Request) (w : World) :
    (h.run svc req w).2.calls = (h.tryBlock svc req w).2.calls := by
  rw [Handler.run_eq]
  rcases h.tryBlock svc req w with ⟨r | r, w1⟩
  · cases h <;> rfl
  · rfl

/-- When no data-service call resolved in a run (input extraction threw, so that no
call was made, or the call itself threw), the `try` block threw. -/
theorem Handler.thrown_of_not_returned (h : Handler) (svc : Services) (req : Request)
    (w : World)
    (hno : ∀ op args envelope,
      (h.run svc req w).2.calls ≠ w.calls ++ [⟨op, args, Except.ok envelope⟩]) :
    ∃ e, h.thrown svc req w = some e := by
  simp only [Handler.run_calls] at hno
  unfold Handler.thrown
  cases h
  case addSystemRole =>
    simp only [Handler.tryBlock, addSystemRole_tryBlock_eq] at hno ⊢
    cases hx : req.tokenData.isNullish with
    | true => simp
    | false =>
      cases ho : svc.saveSystemRole req.body (req.tokenData.get "_id") with
      | error e => simp
      | ok env =>
        exfalso
        apply hno ServiceOp.saveSystemRole [req.body, req.tokenData.get "_id"] env
        simp only [hx, ho, Bool.false_eq_true, if_false]
        split_ifs <;> simp [logError, World.invoked]
  case getAllSystemRoles =>
    simp only [Handler.tryBlock, getAllSystemRoles_tryBlock_eq] at hno ⊢
    cases ho : svc.findSystemRoles projection with
    | error e => simp
    | ok env =>
      exfalso
      apply hno ServiceOp.findSystemRoles [projection] env
      simp only [ho]
      split_ifs <;> simp [logError, World.invoked]
  case fetchSpecificSystemRole =>
    simp only [Handler.tryBlock, fetchSpecificSystemRole_tryBlock_eq] at hno ⊢
    cases hx : req.params.isNullish with
    | true => simp
    | false =>
      cases ho : svc.findSystemRoleById (req.params.get "systemRoleId") projection with
      | error e => simp
      | ok env =>
        exfalso
        apply hno ServiceOp.findSystemRoleById [req.params.get "systemRoleId", projection] env
        simp only [hx, ho, Bool.false_eq_true, if_false]
        split_ifs <;> simp [logError, World.invoked]
  case updateSystemRole =>
    simp only [Handler.tryBlock, updateSystemRole_tryBlock_eq] at hno ⊢
    cases hx : req.params.isNullish with
    | true => simp
    | false =>
      cases ho : svc.findSystemRoleByIdAndUpdate (req.params.get "systemRoleId") req.body
          req.tokenData projection with
      | error e => simp
      | ok env =>
        exfalso
        apply hno ServiceOp.findSystemRoleByIdAndUpdate
          [req.params.get "systemRoleId", req.body, req.tokenData, projection] env
        simp only [hx, ho, Bool.false_eq_true, if_false]
        split_ifs <;> simp [logError, World.invoked]
  case deleteSystemRole =>
    simp only [Handler.tryBlock, deleteSystemRole_tryBlock_eq] at hno ⊢
    cases hx : req.params.isNullish with
    | true => simp
    | false =>
      cases ho : svc.findSystemRoleByIdAndUpdate (req.params.get "systemRoleId")
          (JsVal.obj [("isDeleted", JsVal.bool true)]) req.tokenData projection with
      | error e => simp
      | ok env =>
        exfalso
        apply hno ServiceOp.findSystemRoleByIdAndUpdate
          [req.params.get "systemRoleId", JsVal.obj [("isDeleted", JsVal.bool true)],
            req.tokenData, projection] env
        simp only [hx, ho, Bool.false_eq_true, if_false]
        split_ifs <;> simp [logError, World.invoked]

/-! ## Properties stated by the specification -/

/-- C1 (as amended).  When the data service returns an envelope whose status `s` is
one of SUCCESS, CREATED, NOT_FOUND, CONFLICT, SERVER_ERROR, the HTTP status code of
the response is `s` exactly in these cases: `addSystemRole` with CREATED, CONFLICT
or SERVER_ERROR; `getAllSystemRoles` with SERVER_ERROR, or with SUCCESS and data
that is neither `undefined` nor `null`; `fetchSpecificSystemRole`,
`updateSystemRole` and `deleteSystemRole` with SUCCESS, NOT_FOUND or SERVER_ERROR. -/
theorem status_code_is_envelope_status_iff (h : Handler) (svc : Services) (req : Request)
    (w : World) (envelope : JsVal) (s : Int)
    (hret : h.serviceReturned svc req w envelope)
    (hstatus : envelope.get "status" = JsVal.num s)
    (henum : s = SUCCESS ∨ s = CREATED ∨ s = NOT_FOUND ∨ s = CONFLICT ∨ s = SERVER_ERROR) :
    (h.run svc req w).1.statusCode = s ↔
      ((h = Handler.addSystemRole ∧ (s = CREATED ∨ s = CONFLICT ∨ s = SERVER_ERROR)) ∨
       (h = Handler.getAllSystemRoles ∧
         (s = SERVER_ERROR ∨ (s = SUCCESS ∧ (envelope.get "data").isNullish = false))) ∨
       ((h = Handler.fetchSpecificSystemRole ∨ h = Handler.updateSystemRole ∨
           h = Handler.deleteSystemRole) ∧
         (s = SUCCESS ∨ s = NOT_FOUND ∨ s = SERVER_ERROR))) := by
  have hel := Handler.serviceReturned_elim h svc req w envelope hret
  have hn := JsVal.not_nullish_of_get_num envelope "status" s hstatus
  rw [Handler.run_eq]
  cases h <;> obtain ⟨hx, ho⟩ := hel <;>
  simp only [Handler.tryBlock, Handler.catchBlock, addSystemRole_tryBlock_eq,
    getAllSystemRoles_tryBlock_eq, fetchSpecificSystemRole_tryBlock_eq,
    updateSystemRole_tryBlock_eq, deleteSystemRole_tryBlock_eq, hx, ho, hn, hstatus,
    strictEqualsNumber_num, Bool.false_eq_true, if_false] <;>
  rcases henum with hs | hs | hs | hs | hs <;> subst hs <;>
  simp [settle, SUCCESS, CREATED, NOT_FOUND, CONFLICT, SERVER_ERROR] <;>
  cases hd : (envelope.get "data").isNullish <;>
  simp [settle, getAllSystemRoles.catchBlock, SERVER_ERROR]

/-- C1, an instance of the amended statement: `addSystemRole` answers a CONFLICT
envelope with 409. -/
theorem status_code_is_envelope_status_iff_witness :
    Handler.serviceReturned Handler.addSystemRole
      (Services.always (Except.ok (envelopeOf CONFLICT JsVal.undefined (JsVal.str "duplicate"))))
      sampleRequest World.empty (envelopeOf CONFLICT JsVal.undefined (JsVal.str "duplicate")) ∧
    (envelopeOf CONFLICT JsVal.undefined (JsVal.str "duplicate")).get "status"
      = JsVal.num CONFLICT ∧
    (Handler.run Handler.addSystemRole
      (Services.always (Except.ok (envelopeOf CONFLICT JsVal.undefined (JsVal.str "duplicate"))))
      sampleRequest World.empty).1.statusCode = CONFLICT :=
  ⟨⟨_, _, rfl⟩, rfl,
    (status_code_is_envelope_status_iff Handler.addSystemRole
      (Services.always (Except.ok (envelopeOf CONFLICT JsVal.undefined (JsVal.str "duplicate"))))
      sampleRequest World.empty (envelopeOf CONFLICT JsVal.undefined (JsVal.str "duplicate"))
      CONFLICT ⟨_, _, rfl⟩ rfl (Or.inr (Or.inr (Or.inr (Or.inl rfl))))).2
      (Or.inl ⟨rfl, Or.inr (Or.inl rfl)⟩)⟩

/-- C1, counterexample: the data service returns an envelope with status SUCCESS (200)
to `addSystemRole`, and the response code is 201, not 200. -/
theorem addSystemRole_answers_success_envelope_with_created :
    Handler.serviceReturned Handler.addSystemRole
      (Services.always (Except.ok (envelopeOf SUCCESS (JsVal.str "role") JsVal.undefined)))
      sampleRequest World.empty (envelopeOf SUCCESS (JsVal.str "role") JsVal.undefined) ∧
    (envelopeOf SUCCESS (JsVal.str "role") JsVal.undefined).get "status" = JsVal.num 200 ∧
    (Handler.run Handler.addSystemRole
      (Services.always (Except.ok (envelopeOf SUCCESS (JsVal.str "role") JsVal.undefined)))
      sampleRequest World.empty).1.statusCode = 201 ∧
    (Handler.run Handler.addSystemRole
      (Services.always (Except.ok (envelopeOf SUCCESS (JsVal.str "role") JsVal.undefined)))
      sampleRequest World.empty).1.statusCode ≠ 200 :=
  ⟨⟨_, _, rfl⟩, rfl, rfl, by decide⟩

/-- A run whose `try` block throws is the `catch` block applied to the thrown value. -/
theorem Handler.run_of_thrown (h : Handler) (svc : Services) (req : Request) (w : World)
    (e : JsVal) (ht : h.thrown svc req w = some e) :
    h.run svc req w = h.catchBlock e (h.tryBlock svc req w).2 := by
  rw [Handler.run_eq]
  unfold Handler.thrown at ht
  rcases hb : h.tryBlock svc req w with ⟨r | r, w1⟩
  · rw [hb] at ht
    simp only [Option.some.injEq] at ht
    simp [settle, ht]
  · rw [hb] at ht
    simp at ht

/-- The `try` block throws whatever the data service throws. -/
theorem Handler.thrown_of_service_throws (h : Handler) (req : Request) (w : World)
    (e : JsVal) (hparams : req.params.isNullish = false)
    (htoken : req.tokenData.isNullish = false) :
    h.thrown (Services.always (Except.error e)) req w = some e := by
  cases h <;>
  simp [Handler.thrown, Handler.tryBlock, addSystemRole_tryBlock_eq,
    getAllSystemRoles_tryBlock_eq, fetchSpecificSystemRole_tryBlock_eq,
    updateSystemRole_tryBlock_eq, deleteSystemRole_tryBlock_eq, hparams, htoken,
    Services.always]

/-- The response of the `catch` block of a handler does not depend on the value
caught nor on the world. -/
theorem Handler.catchBlock_response (h : Handler) (e1 e2 : JsVal) (w1 w2 : World) :
    (h.catchBlock e1 w1).1 = (h.catchBlock e2 w2).1 := by
  cases h <;> rfl

/-- C2 (as amended).  When the `try` block of a handler throws (input extraction,
the data-service call, or reading the envelope), the handler responds with status
500, `hasError: true` and the message "ERROR: Requested operation failed."; the
generic text is carried in `error.error`, a string fixed for the handler: the same
for every data service, request, world and thrown value. -/
theorem catch_all_response (h : Handler) :
    ∃ text : String, ∀ (svc : Services) (req : Request) (w : World) (e : JsVal),
      h.thrown svc req w = some e →
        (h.run svc req w).1.statusCode = 500 ∧
        (h.run svc req w).1.hasError = JsVal.bool true ∧
        (h.run svc req w).1.message = JsVal.str "ERROR: Requested operation failed." ∧
        (h.run svc req w).1.error = JsVal.obj [("error", JsVal.str text)] := by
  cases h
  case addSystemRole =>
    refine ⟨"An unhandled exception occured on the server.", fun svc req w e ht => ?_⟩
    rw [Handler.run_of_thrown _ svc req w e ht]
    simp [Handler.catchBlock, addSystemRole.catchBlock, Response.hasError,
      Response.message, Response.error, JsVal.get_obj, lookupField, SERVER_ERROR]
  case getAllSystemRoles =>
    refine ⟨"An unexpected error occurred on the server.", fun svc req w e ht => ?_⟩
    rw [Handler.run_of_thrown _ svc req w e ht]
    simp [Handler.catchBlock, getAllSystemRoles.catchBlock, Response.hasError,
      Response.message, Response.error, JsVal.get_obj, lookupField, SERVER_ERROR]
  case fetchSpecificSystemRole =>
    refine ⟨"An unexpected error occurred on the server.", fun svc req w e ht => ?_⟩
    rw [Handler.run_of_thrown _ svc req w e ht]
    simp [Handler.catchBlock, fetchSpecificSystemRole.catchBlock, Response.hasError,
      Response.message, Response.error, JsVal.get_obj, lookupField, SERVER_ERROR]
  case updateSystemRole =>
    refine ⟨"An unexpected error occurred on the server.", fun svc req w e ht => ?_⟩
    rw [Handler.run_of_thrown _ svc req w e ht]
    simp [Handler.catchBlock, updateSystemRole.catchBlock, Response.hasError,
      Response.message, Response.error, JsVal.get_obj, lookupField, SERVER_ERROR]
  case deleteSystemRole =>
    refine ⟨"An unexpected error occurred on the server.", fun svc req w e ht => ?_⟩
    rw [Handler.run_of_thrown _ svc req w e ht]
    simp [Handler.catchBlock, deleteSystemRole.catchBlock, Response.hasError,
      Response.message, Response.error, JsVal.get_obj, lookupField, SERVER_ERROR]

/-- C2, an instance: in `deleteSystemRole` one text serves a data service that throws
and a request without path parameters. -/
theorem catch_all_response_witness :
    ∃ text : String,
      (Handler.thrown Handler.deleteSystemRole
        (Services.always (Except.error (JsVal.str "connection lost")))
        sampleRequest World.empty = some (JsVal.str "connection lost") ∧
       (Handler.run Handler.deleteSystemRole
        (Services.always (Except.error (JsVal.str "connection lost")))
        sampleRequest World.empty).1.statusCode = 500 ∧
       (Handler.run Handler.deleteSystemRole
        (Services.always (Except.error (JsVal.str "connection lost")))
        sampleRequest World.empty).1.message
          = JsVal.str "ERROR: Requested operation failed." ∧
       (Handler.run Handler.deleteSystemRole
        (Services.always (Except.error (JsVal.str "connection lost")))
        sampleRequest World.empty).1.error = JsVal.obj [("error", JsVal.str text)]) ∧
      (Handler.thrown Handler.deleteSystemRole
        (Services.always (Except.ok JsVal.null))
        ⟨JsVal.null, JsVal.undefined, JsVal.null⟩ World.empty = some typeError ∧
       (Handler.run Handler.deleteSystemRole
        (Services.always (Except.ok JsVal.null))
        ⟨JsVal.null, JsVal.undefined, JsVal.null⟩ World.empty).1.error
          = JsVal.obj [("error", JsVal.str text)]) :=
  (catch_all_response Handler.deleteSystemRole).imp fun _ ht =>
    ⟨⟨rfl,
      (ht (Services.always (Except.error (JsVal.str "connection lost")))
        sampleRequest World.empty (JsVal.str "connection lost") rfl).1,
      (ht (Services.always (Except.error (JsVal.str "connection lost")))
        sampleRequest World.empty (JsVal.str "connection lost") rfl).2.2.1,
      (ht (Services.always (Except.error (JsVal.str "connection lost")))
        sampleRequest World.empty (JsVal.str "connection lost") rfl).2.2.2⟩,
     ⟨rfl,
      (ht (Services.always (Except.ok JsVal.null))
        ⟨JsVal.null, JsVal.undefined, JsVal.null⟩ World.empty typeError rfl).2.2.2⟩⟩

/-- C2, counterexample: the data service throws in `getAllSystemRoles`; the message of
the response is "ERROR: Requested operation failed.", not "An unhandled exception
occurred on the server.". -/
theorem catch_all_message_is_not_the_generic_text :
    Handler.thrown Handler.getAllSystemRoles
      (Services.always (Except.error (JsVal.str "connection lost")))
      sampleRequest World.empty = some (JsVal.str "connection lost") ∧
    (Handler.run Handler.getAllSystemRoles
      (Services.always (Except.error (JsVal.str "connection lost")))
      sampleRequest World.empty).1.message
        = JsVal.str "ERROR: Requested operation failed." ∧
    (Handler.run Handler.getAllSystemRoles
      (Services.always (Except.error (JsVal.str "connection lost")))
      sampleRequest World.empty).1.message
        ≠ JsVal.str "An unhandled exception occurred on the server." :=
  ⟨rfl, rfl, fun heq => absurd (JsVal.str.inj heq) (by decide)⟩

/-- C3.  For each handler, any two runs whose `try` block throws send the same
response, status code and whole body, whatever the two thrown values, requests, data
services and worlds are. -/
theorem catch_all_response_is_constant (h : Handler) (svc1 svc2 : Services)
    (req1 req2 : Request) (w1 w2 : World) (e1 e2 : JsVal)
    (ht1 : h.thrown svc1 req1 w1 = some e1)
    (ht2 : h.thrown svc2 req2 w2 = some e2) :
    (h.run svc1 req1 w1).1 = (h.run svc2 req2 w2).1 := by
  rw [Handler.run_of_thrown h svc1 req1 w1 e1 ht1,
    Handler.run_of_thrown h svc2 req2 w2 e2 ht2]
  exact Handler.catchBlock_response h _ _ _ _

/-- C3, an instance: in `updateSystemRole`, a data service that throws a secret and a
request without path parameters get the same response. -/
theorem catch_all_response_is_constant_witness :
    (Handler.run Handler.updateSystemRole
      (Services.always (Except.error (JsVal.str "password=hunter2")))
      sampleRequest World.empty).1 =
    (Handler.run Handler.updateSystemRole
      (Services.always (Except.ok JsVal.null))
      ⟨JsVal.str "other body", JsVal.undefined, JsVal.null⟩ World.empty).1 :=
  catch_all_response_is_constant Handler.updateSystemRole
    (Services.always (Except.error (JsVal.str "password=hunter2")))
    (Services.always (Except.ok JsVal.null))
    sampleRequest ⟨JsVal.str "other body", JsVal.undefined, JsVal.null⟩
    World.empty World.empty (JsVal.str "password=hunter2") typeError rfl rfl

/-- C4.  Every response of every handler is well formed: its body has exactly the
fields `hasError` (a boolean), `message` (a string) and one of `error` and `data`;
`hasError` is true exactly when the status code is 404, 409 or 500 and false exactly
when it is 200 or 201; the third field is `error`, of the shape `{error: ...}`, when
`hasError` is true and `data` when it is false. -/
theorem response_well_formed (h : Handler) (svc : Services) (req : Request) (w : World) :
    ∃ (b : Bool) (msg : String) (payload : JsVal),
      (h.run svc req w).1.body = JsVal.obj [
        ("hasError", JsVal.bool b),
        ("message", JsVal.str msg),
        (if b then "error" else "data", payload)] ∧
      (b = true ↔ ((h.run svc req w).1.statusCode = 404 ∨
        (h.run svc req w).1.statusCode = 409 ∨ (h.run svc req w).1.statusCode = 500)) ∧
      (b = false ↔ ((h.run svc req w).1.statusCode = 200 ∨
        (h.run svc req w).1.statusCode = 201)) ∧
      (b = true → ∃ e, payload = JsVal.obj [("error", e)]) := by
  rcases Handler.run_cases h svc req w with
    ⟨code, msg, e, entry, hcode, hresp, _⟩ | ⟨code, msg, d, hcode, hresp, _⟩
  · refine ⟨true, msg, JsVal.obj [("error", e)], ?_, ?_, ?_, fun _ => ⟨e, rfl⟩⟩
    · rw [hresp]; rfl
    · rw [hresp]
      simpa [NOT_FOUND, CONFLICT, SERVER_ERROR] using hcode
    · rw [hresp]
      rcases hcode with hc | hc | hc <;> subst hc <;>
      simp [NOT_FOUND, CONFLICT, SERVER_ERROR]
  · refine ⟨false, msg, d, ?_, ?_, ?_, fun hb => by cases hb⟩
    · rw [hresp]; rfl
    · rw [hresp]
      rcases hcode with hc | hc <;> subst hc <;> simp [SUCCESS, CREATED]
    · rw [hresp]
      simpa [SUCCESS, CREATED] using hcode

/-- C9.  Every run appends exactly one entry to the log when its response is a failure
(`hasError: true`) and none when it is a success (`hasError: false`). -/
theorem one_log_entry_per_failure (h : Handler) (svc : Services) (req : Request)
    (w : World) :
    ∃ (b : Bool) (entries : List LogEntry),
      (h.run svc req w).1.hasError = JsVal.bool b ∧
      (h.run svc req w).2.log = w.log ++ entries ∧
      entries.length = (if b then 1 else 0) := by
  rcases Handler.run_cases h svc req w with
    ⟨code, msg, e, entry, _, hresp, hlog⟩ | ⟨code, msg, d, _, hresp, hlog⟩
  · exact ⟨true, [entry], by rw [hresp]; rfl, hlog, rfl⟩
  · exact ⟨false, [], by rw [hresp]; rfl, by rw [hlog, List.append_nil], rfl⟩

theorem updateSystemRole_eq_settle (svc : Services) (req : Request) (w : World) :
    updateSystemRole svc req w =
      settle updateSystemRole.catchBlock (updateSystemRole.tryBlock svc req w) :=
  tryCatchStmt_eq_settle _ _ _

theorem deleteSystemRole_eq_settle (svc : Services) (req : Request) (w : World) :
    deleteSystemRole svc req w =
      settle deleteSystemRole.catchBlock (deleteSystemRole.tryBlock svc req w) :=
  tryCatchStmt_eq_settle _ _ _

/-- C5.  `deleteSystemRole` is `updateSystemRole` with the fixed body
`{isDeleted: true}`: on a request it makes the data-service call that
`updateSystemRole` makes on the same request with its body replaced by
`{isDeleted: true}` (same path id, same token data, same projection), the body of
the request has no influence on the run, and the two responses have the same status
code, `hasError`, message and `error`; they are the same response unless the outcome
is a success, where `deleteSystemRole` returns the path id as `data.systemRole` and
`updateSystemRole` the data of the envelope. -/
theorem deleteSystemRole_is_update_with_fixed_body (svc : Services) (req : Request)
    (w : World) :
    (deleteSystemRole svc req w).2.calls =
      (updateSystemRole svc
        ⟨JsVal.obj [("isDeleted", JsVal.bool true)], req.params, req.tokenData⟩ w).2.calls ∧
    (deleteSystemRole svc req w).2.calls =
      (if req.params.isNullish then w.calls
       else w.calls ++ [⟨ServiceOp.findSystemRoleByIdAndUpdate,
        [req.params.get "systemRoleId", JsVal.obj [("isDeleted", JsVal.bool true)],
          req.tokenData, JsVal.str "-__v"],
        svc.findSystemRoleByIdAndUpdate (req.params.get "systemRoleId")
          (JsVal.obj [("isDeleted", JsVal.bool true)]) req.tokenData (JsVal.str "-__v")⟩]) ∧
    (∀ body : JsVal,
      deleteSystemRole svc ⟨body, req.params, req.tokenData⟩ w = deleteSystemRole svc req w) ∧
    (deleteSystemRole svc req w).1.statusCode =
      (updateSystemRole svc
        ⟨JsVal.obj [("isDeleted", JsVal.bool true)], req.params, req.tokenData⟩ w).1.statusCode ∧
    (deleteSystemRole svc req w).1.hasError =
      (updateSystemRole svc
        ⟨JsVal.obj [("isDeleted", JsVal.bool true)], req.params, req.tokenData⟩ w).1.hasError ∧
    (deleteSystemRole svc req w).1.message =
      (updateSystemRole svc
        ⟨JsVal.obj [("isDeleted", JsVal.bool true)], req.params, req.tokenData⟩ w).1.message ∧
    (deleteSystemRole svc req w).1.error =
      (updateSystemRole svc
        ⟨JsVal.obj [("isDeleted", JsVal.bool true)], req.params, req.tokenData⟩ w).1.error ∧
    ((deleteSystemRole svc req w).1.hasError = JsVal.bool true →
      (deleteSystemRole svc req w).1 =
        (updateSystemRole svc
          ⟨JsVal.obj [("isDeleted", JsVal.bool true)], req.params, req.tokenData⟩ w).1) ∧
    ((deleteSystemRole svc req w).1.hasError = JsVal.bool false →
      ∃ envelope,
        svc.findSystemRoleByIdAndUpdate (req.params.get "systemRoleId")
          (JsVal.obj [("isDeleted", JsVal.bool true)]) req.tokenData (JsVal.str "-__v")
          = Except.ok envelope ∧
        (deleteSystemRole svc req w).1.data =
          JsVal.obj [("systemRole", req.params.get "systemRoleId")] ∧
        (updateSystemRole svc
          ⟨JsVal.obj [("isDeleted", JsVal.bool true)], req.params, req.tokenData⟩ w).1.data =
          JsVal.obj [("systemRole", envelope.get "data")]) := by
  simp only [deleteSystemRole_eq_settle, updateSystemRole_eq_settle,
    deleteSystemRole_tryBlock_eq, updateSystemRole_tryBlock_eq, projection]
  cases hx : req.params.isNullish with
  | true =>
    simp [settle, deleteSystemRole.catchBlock, updateSystemRole.catchBlock, logError,
      Response.hasError, Response.message, Response.error, JsVal.get_obj, lookupField]
  | false =>
    cases ho : svc.findSystemRoleByIdAndUpdate (req.params.get "systemRoleId")
        (JsVal.obj [("isDeleted", JsVal.bool true)]) req.tokenData (JsVal.str "-__v") with
    | error e =>
      simp [settle, deleteSystemRole.catchBlock, updateSystemRole.catchBlock, logError,
        World.invoked, Response.hasError, Response.message, Response.error, JsVal.get_obj,
        lookupField]
    | ok envelope =>
      cases hn : envelope.isNullish <;>
      simp only [hn, Bool.false_eq_true, if_false, if_true] <;>
      (try split_ifs) <;>
      simp [settle, deleteSystemRole.catchBlock, updateSystemRole.catchBlock, logError,
        World.invoked, Response.hasError, Response.message, Response.error, Response.data,
        JsVal.get_obj, lookupField]

/-- C6 (as amended).  When the data service returns an envelope: a success response of
`addSystemRole`, `fetchSpecificSystemRole` or `updateSystemRole` carries the data of
the envelope, unchanged, as `data.systemRole`; and for every handler, a failure
response whose status code is the status of the envelope carries the error of the
envelope, unchanged, as `error.error`.  These are the responses to the statuses of
the `if` / `else if` chain of the handler, which always get such a response. -/
theorem payload_matches_envelope (h : Handler) (svc : Services) (req : Request)
    (w : World) (envelope : JsVal)
    (hret : h.serviceReturned svc req w envelope) :
    ((h = Handler.addSystemRole ∨ h = Handler.fetchSpecificSystemRole ∨
        h = Handler.updateSystemRole) →
      (h.run svc req w).1.hasError = JsVal.bool false →
      (h.run svc req w).1.data.get "systemRole" = envelope.get "data") ∧
    (∀ c ∈ h.recognisedFailures, envelope.get "status" = JsVal.num c →
      (h.run svc req w).1.statusCode = c ∧
      (h.run svc req w).1.hasError = JsVal.bool true ∧
      (h.run svc req w).1.error.get "error" = envelope.get "error") ∧
    ((h.run svc req w).1.hasError = JsVal.bool true →
      envelope.get "status" = JsVal.num (h.run svc req w).1.statusCode →
      (h.run svc req w).1.error.get "error" = envelope.get "error") := by
  have hel := Handler.serviceReturned_elim h svc req w envelope hret
  rw [Handler.run_eq]
  cases h <;> obtain ⟨hx, ho⟩ := hel <;>
  simp only [Handler.tryBlock, Handler.catchBlock, addSystemRole_tryBlock_eq,
    getAllSystemRoles_tryBlock_eq, fetchSpecificSystemRole_tryBlock_eq,
    updateSystemRole_tryBlock_eq, deleteSystemRole_tryBlock_eq, hx, ho,
    Bool.false_eq_true, if_false] <;>
  cases hn : envelope.isNullish <;>
  simp only [Bool.false_eq_true, if_false, if_true] <;>
  (try have hu := JsVal.get_of_nullish envelope "status" hn) <;>
  (try split_ifs with h1 h2) <;>
  (try simp only [strictEqualsNumber_iff] at h1) <;>
  (try simp only [strictEqualsNumber_iff] at h2) <;>
  simp_all [settle, Response.hasError, Response.data, Response.error, JsVal.get_obj,
    lookupField, Handler.recognisedFailures, addSystemRole.catchBlock,
    getAllSystemRoles.catchBlock, fetchSpecificSystemRole.catchBlock,
    updateSystemRole.catchBlock, deleteSystemRole.catchBlock,
    SUCCESS, CREATED, NOT_FOUND, CONFLICT, SERVER_ERROR]


/-- C6, an instance: `fetchSpecificSystemRole` given a NOT_FOUND envelope answers
with the error of the envelope under `error.error`. -/
theorem payload_matches_envelope_witness :
    Handler.serviceReturned Handler.fetchSpecificSystemRole
      (Services.always (Except.ok (envelopeOf NOT_FOUND JsVal.undefined (JsVal.str "no such id"))))
      sampleRequest World.empty (envelopeOf NOT_FOUND JsVal.undefined (JsVal.str "no such id")) ∧
    (Handler.run Handler.fetchSpecificSystemRole
      (Services.always (Except.ok (envelopeOf NOT_FOUND JsVal.undefined (JsVal.str "no such id"))))
      sampleRequest World.empty).1.error.get "error" = JsVal.str "no such id" :=
  ⟨⟨_, _, rfl⟩,
    ((payload_matches_envelope Handler.fetchSpecificSystemRole
      (Services.always (Except.ok (envelopeOf NOT_FOUND JsVal.undefined (JsVal.str "no such id"))))
      sampleRequest World.empty (envelopeOf NOT_FOUND JsVal.undefined (JsVal.str "no such id"))
      ⟨_, _, rfl⟩).2.1 NOT_FOUND (by simp [Handler.recognisedFailures]) rfl).2.2⟩

/-- C6, counterexample: `findSystemRoles` returns a NOT_FOUND envelope without data to
`getAllSystemRoles`; the handler answers with a failure (500, `hasError: true`) whose
`error.error` is the text of its `catch` block, not the error of the envelope. -/
theorem getAllSystemRoles_failure_without_envelope_error :
    Handler.serviceReturned Handler.getAllSystemRoles
      (Services.always (Except.ok (envelopeOf NOT_FOUND JsVal.undefined (JsVal.str "no such id"))))
      sampleRequest World.empty (envelopeOf NOT_FOUND JsVal.undefined (JsVal.str "no such id")) ∧
    (envelopeOf NOT_FOUND JsVal.undefined (JsVal.str "no such id")).get "status"
      = JsVal.num 404 ∧
    (envelopeOf NOT_FOUND JsVal.undefined (JsVal.str "no such id")).get "error"
      = JsVal.str "no such id" ∧
    (Handler.run Handler.getAllSystemRoles
      (Services.always (Except.ok (envelopeOf NOT_FOUND JsVal.undefined (JsVal.str "no such id"))))
      sampleRequest World.empty).1.statusCode = 500 ∧
    (Handler.run Handler.getAllSystemRoles
      (Services.always (Except.ok (envelopeOf NOT_FOUND JsVal.undefined (JsVal.str "no such id"))))
      sampleRequest World.empty).1.hasError = JsVal.bool true ∧
    (Handler.run Handler.getAllSystemRoles
      (Services.always (Except.ok (envelopeOf NOT_FOUND JsVal.undefined (JsVal.str "no such id"))))
      sampleRequest World.empty).1.error.get "error"
        = JsVal.str "An unexpected error occurred on the server." ∧
    (Handler.run Handler.getAllSystemRoles
      (Services.always (Except.ok (envelopeOf NOT_FOUND JsVal.undefined (JsVal.str "no such id"))))
      sampleRequest World.empty).1.error.get "error" ≠
    (envelopeOf NOT_FOUND JsVal.undefined (JsVal.str "no such id")).get "error" :=
  ⟨⟨_, _, rfl⟩, rfl, rfl, rfl, rfl, rfl, fun heq =>
    absurd (JsVal.str.inj heq) (by decide)⟩

theorem getAllSystemRoles_eq_settle (svc : Services) (req : Request) (w : World) :
    getAllSystemRoles svc req w =
      settle getAllSystemRoles.catchBlock (getAllSystemRoles.tryBlock svc req w) :=
  tryCatchStmt_eq_settle _ _ _

/-- C7.  When `findSystemRoles` returns a SUCCESS envelope whose data is a sequence of
records (possibly empty), `getAllSystemRoles` responds 200 with `hasError: false`,
`data.systemRoles` that same sequence and `data.totalSystemRoles` its length. -/
theorem getAllSystemRoles_lists_records (svc : Services) (req : Request) (w : World)
    (envelope : JsVal) (records : List JsVal)
    (hret : svc.findSystemRoles projection = Except.ok envelope)
    (hstatus : envelope.get "status" = JsVal.num SUCCESS)
    (hdata : envelope.get "data" = JsVal.arr records) :
    (getAllSystemRoles svc req w).1.statusCode = 200 ∧
    (getAllSystemRoles svc req w).1.hasError = JsVal.bool false ∧
    (getAllSystemRoles svc req w).1.data.get "systemRoles" = JsVal.arr records ∧
    (getAllSystemRoles svc req w).1.data.get "totalSystemRoles"
      = JsVal.num records.length := by
  have hn := JsVal.not_nullish_of_get_num envelope "status" SUCCESS hstatus
  rw [getAllSystemRoles_eq_settle, getAllSystemRoles_tryBlock_eq]
  have hlen : (JsVal.arr records).get "length" = JsVal.num records.length := by
    simp [JsVal.get]
  have harr : (JsVal.arr records).isNullish = false := rfl
  simp only [hret, hn, hstatus, hdata, hlen, harr, strictEqualsNumber_num]
  simp [settle, Response.hasError, Response.data, JsVal.get_obj, lookupField,
    SUCCESS, SERVER_ERROR]

/-- C7, an instance with two records. -/
theorem getAllSystemRoles_lists_records_witness :
    (getAllSystemRoles
      (Services.always (Except.ok (envelopeOf SUCCESS
        (JsVal.arr [JsVal.str "admin", JsVal.str "editor"]) JsVal.undefined)))
      sampleRequest World.empty).1.data.get "systemRoles"
        = JsVal.arr [JsVal.str "admin", JsVal.str "editor"] ∧
    (getAllSystemRoles
      (Services.always (Except.ok (envelopeOf SUCCESS
        (JsVal.arr [JsVal.str "admin", JsVal.str "editor"]) JsVal.undefined)))
      sampleRequest World.empty).1.data.get "totalSystemRoles" = JsVal.num 2 :=
  (getAllSystemRoles_lists_records
    (Services.always (Except.ok (envelopeOf SUCCESS
      (JsVal.arr [JsVal.str "admin", JsVal.str "editor"]) JsVal.undefined)))
    sampleRequest World.empty
    (envelopeOf SUCCESS (JsVal.arr [JsVal.str "admin", JsVal.str "editor"]) JsVal.undefined)
    [JsVal.str "admin", JsVal.str "editor"] rfl rfl rfl).2.2

/-- What each handler sends as the message of a response that answers an envelope
with the status of that envelope. -/
theorem Handler.message_of_answered_status (h : Handler) (svc : Services) (req : Request)
    (w : World) (envelope : JsVal) (s : Int)
    (hret : h.serviceReturned svc req w envelope)
    (hstatus : envelope.get "status" = JsVal.num s)
    (hcode : (h.run svc req w).1.statusCode = s)
    (henum : s = SUCCESS ∨ s = CREATED ∨ s = NOT_FOUND ∨ s = CONFLICT ∨ s = SERVER_ERROR) :
    (h.run svc req w).1.message = JsVal.str
      (if s = SUCCESS ∨ s = CREATED then "SUCCESS: Requested operation successful."
       else if s = NOT_FOUND ∧ h ≠ Handler.fetchSpecificSystemRole then
         "ERROR: Requested operation failed. System role not found."
       else "ERROR: Requested operation failed.") := by
  have hel := Handler.serviceReturned_elim h svc req w envelope hret
  have hn := JsVal.not_nullish_of_get_num envelope "status" s hstatus
  rw [Handler.run_eq] at hcode ⊢
  cases h <;> obtain ⟨hx, ho⟩ := hel <;>
  simp only [Handler.tryBlock, Handler.catchBlock, addSystemRole_tryBlock_eq,
    getAllSystemRoles_tryBlock_eq, fetchSpecificSystemRole_tryBlock_eq,
    updateSystemRole_tryBlock_eq, deleteSystemRole_tryBlock_eq, hx, ho, hn, hstatus,
    strictEqualsNumber_num, Bool.false_eq_true, if_false] at hcode ⊢ <;>
  rcases henum with hs | hs | hs | hs | hs <;> subst hs <;>
  simp [settle, Response.message, JsVal.get_obj, lookupField,
    SUCCESS, CREATED, NOT_FOUND, CONFLICT, SERVER_ERROR] at hcode ⊢ <;>
  cases hd : (envelope.get "data").isNullish <;>
  simp [hd, settle, getAllSystemRoles.catchBlock, Response.message, JsVal.get_obj,
    lookupField, SERVER_ERROR] at hcode ⊢

/-- C8, the code at the failing input: `fetchSpecificSystemRole` and
`updateSystemRole` both receive a NOT_FOUND envelope and both answer 404, with
different messages. -/
theorem not_found_message_differs_between_fetch_and_update :
    Handler.serviceReturned Handler.fetchSpecificSystemRole
      (Services.always (Except.ok (envelopeOf NOT_FOUND JsVal.undefined (JsVal.str "no such id"))))
      sampleRequest World.empty (envelopeOf NOT_FOUND JsVal.undefined (JsVal.str "no such id")) ∧
    Handler.serviceReturned Handler.updateSystemRole
      (Services.always (Except.ok (envelopeOf NOT_FOUND JsVal.undefined (JsVal.str "no such id"))))
      sampleRequest World.empty (envelopeOf NOT_FOUND JsVal.undefined (JsVal.str "no such id")) ∧
    (Handler.run Handler.fetchSpecificSystemRole
      (Services.always (Except.ok (envelopeOf NOT_FOUND JsVal.undefined (JsVal.str "no such id"))))
      sampleRequest World.empty).1.statusCode = 404 ∧
    (Handler.run Handler.updateSystemRole
      (Services.always (Except.ok (envelopeOf NOT_FOUND JsVal.undefined (JsVal.str "no such id"))))
      sampleRequest World.empty).1.statusCode = 404 ∧
    (Handler.run Handler.fetchSpecificSystemRole
      (Services.always (Except.ok (envelopeOf NOT_FOUND JsVal.undefined (JsVal.str "no such id"))))
      sampleRequest World.empty).1.message
        = JsVal.str "ERROR: Requested operation failed." ∧
    (Handler.run Handler.updateSystemRole
      (Services.always (Except.ok (envelopeOf NOT_FOUND JsVal.undefined (JsVal.str "no such id"))))
      sampleRequest World.empty).1.message
        = JsVal.str "ERROR: Requested operation failed. System role not found." ∧
    (Handler.run Handler.fetchSpecificSystemRole
      (Services.always (Except.ok (envelopeOf NOT_FOUND JsVal.undefined (JsVal.str "no such id"))))
      sampleRequest World.empty).1.message ≠
    (Handler.run Handler.updateSystemRole
      (Services.always (Except.ok (envelopeOf NOT_FOUND JsVal.undefined (JsVal.str "no such id"))))
      sampleRequest World.empty).1.message :=
  ⟨⟨_, _, rfl⟩, ⟨_, _, rfl⟩, rfl, rfl, rfl, rfl, fun heq =>
    absurd (JsVal.str.inj heq) (by decide)⟩

/-- C10.  When the data service returns an envelope, a handler answers the statuses it
recognises (SERVER_ERROR everywhere, CONFLICT in `addSystemRole`, NOT_FOUND in
`fetchSpecificSystemRole`, `updateSystemRole` and `deleteSystemRole`) with that
status and `hasError: true`, and every other status value with its own success code
(201 for `addSystemRole`, 200 for the others) and `hasError: false`; for
`getAllSystemRoles` the latter provided the data of the envelope is a sequence. -/
theorem unrecognised_status_is_success (h : Handler) (svc : Services) (req : Request)
    (w : World) (envelope : JsVal)
    (hret : h.serviceReturned svc req w envelope)
    (henv : envelope.isNullish = false) :
    (∀ c ∈ h.recognisedFailures, envelope.get "status" = JsVal.num c →
      (h.run svc req w).1.statusCode = c ∧
      (h.run svc req w).1.hasError = JsVal.bool true) ∧
    ((∀ c ∈ h.recognisedFailures, envelope.get "status" ≠ JsVal.num c) →
      (h = Handler.getAllSystemRoles → ∃ records, envelope.get "data" = JsVal.arr records) →
      (h.run svc req w).1.statusCode = h.successCode ∧
      (h.run svc req w).1.hasError = JsVal.bool false) := by
  have hel := Handler.serviceReturned_elim h svc req w envelope hret
  rw [Handler.run_eq]
  cases h <;> obtain ⟨hx, ho⟩ := hel <;>
  simp only [Handler.tryBlock, Handler.catchBlock, addSystemRole_tryBlock_eq,
    getAllSystemRoles_tryBlock_eq, fetchSpecificSystemRole_tryBlock_eq,
    updateSystemRole_tryBlock_eq, deleteSystemRole_tryBlock_eq, hx, ho, henv,
    Bool.false_eq_true, if_false] <;>
  split_ifs with h1 h2 <;>
  simp only [strictEqualsNumber_iff] at h1 <;>
  (try simp only [strictEqualsNumber_iff] at h2) <;>
  refine ⟨fun c hc hst => ?_, fun hne hdata => ?_⟩ <;>
  simp_all [settle, Response.hasError, JsVal.get_obj, lookupField,
      Handler.recognisedFailures, Handler.successCode,
      SUCCESS, CREATED, NOT_FOUND, CONFLICT, SERVER_ERROR]
  obtain ⟨records, hrec⟩ := hdata
  rw [hrec] at h2
  exact absurd h2 (by simp [JsVal.isNullish])

/-- C10, an instance: `getAllSystemRoles` answers 200 with `hasError: false` to a
NOT_FOUND envelope that carries a list. -/
theorem unrecognised_status_is_success_witness :
    Handler.serviceReturned Handler.getAllSystemRoles
      (Services.always (Except.ok (envelopeOf NOT_FOUND (JsVal.arr []) JsVal.undefined)))
      sampleRequest World.empty (envelopeOf NOT_FOUND (JsVal.arr []) JsVal.undefined) ∧
    (envelopeOf NOT_FOUND (JsVal.arr []) JsVal.undefined).isNullish = false ∧
    (Handler.run Handler.getAllSystemRoles
      (Services.always (Except.ok (envelopeOf NOT_FOUND (JsVal.arr []) JsVal.undefined)))
      sampleRequest World.empty).1.statusCode = 200 ∧
    (Handler.run Handler.getAllSystemRoles
      (Services.always (Except.ok (envelopeOf NOT_FOUND (JsVal.arr []) JsVal.undefined)))
      sampleRequest World.empty).1.hasError = JsVal.bool false :=
  ⟨⟨_, _, rfl⟩, rfl,
    (unrecognised_status_is_success Handler.getAllSystemRoles
      (Services.always (Except.ok (envelopeOf NOT_FOUND (JsVal.arr []) JsVal.undefined)))
      sampleRequest World.empty (envelopeOf NOT_FOUND (JsVal.arr []) JsVal.undefined)
      ⟨_, _, rfl⟩ rfl).2
      (by simp [Handler.recognisedFailures, envelopeOf, JsVal.get_obj, lookupField,
        NOT_FOUND, SERVER_ERROR])
      (fun _ => ⟨[], rfl⟩)⟩

/-! ## Further properties of the handlers -/

/-- A handler makes at most one data-service call in a run: none when input
extraction throws, one otherwise; earlier invocations stay as they are. -/
theorem at_most_one_service_call (h : Handler) (svc : Services) (req : Request)
    (w : World) :
    (h.run svc req w).2.calls = w.calls ∨
    ∃ invocation, (h.run svc req w).2.calls = w.calls ++ [invocation] := by
  rw [Handler.run_calls]
  cases h <;>
  simp only [Handler.tryBlock, addSystemRole_tryBlock_eq, getAllSystemRoles_tryBlock_eq,
    fetchSpecificSystemRole_tryBlock_eq, updateSystemRole_tryBlock_eq,
    deleteSystemRole_tryBlock_eq] <;>
  (repeat' split) <;>
  simp [logError, World.invoked]

/-- The response of a handler does not depend on the world it runs in: the
handlers keep no state between requests. -/
theorem response_independent_of_world (h : Handler) (svc : Services) (req : Request)
    (w1 w2 : World) :
    (h.run svc req w1).1 = (h.run svc req w2).1 := by
  rw [Handler.run_eq, Handler.run_eq]
  cases h <;>
  simp only [Handler.tryBlock, Handler.catchBlock, addSystemRole_tryBlock_eq,
    getAllSystemRoles_tryBlock_eq, fetchSpecificSystemRole_tryBlock_eq,
    updateSystemRole_tryBlock_eq, deleteSystemRole_tryBlock_eq] <;>
  (repeat' split) <;>
  rfl

/-- When `findSystemRoles` returns an envelope whose status is not SERVER_ERROR and
whose data is `undefined` or `null`, reading `data.length` throws and
`getAllSystemRoles` answers with its catch-all response, whatever the status and
the error of the envelope are. -/
theorem getAllSystemRoles_without_data (svc : Services) (req : Request) (w : World)
    (envelope : JsVal)
    (hret : svc.findSystemRoles projection = Except.ok envelope)
    (hstatus : envelope.get "status" ≠ JsVal.num SERVER_ERROR)
    (hdata : (envelope.get "data").isNullish = true) :
    (getAllSystemRoles svc req w).1 = ⟨500, JsVal.obj [
      ("hasError", JsVal.bool true),
      ("message", JsVal.str "ERROR: Requested operation failed."),
      ("error", JsVal.obj [("error",
        JsVal.str "An unexpected error occurred on the server.")])]⟩ := by
  have hs : strictEqualsNumber (envelope.get "status") SERVER_ERROR = false := by
    rw [Bool.eq_false_iff]
    exact fun hh => hstatus ((strictEqualsNumber_iff _ _).1 hh)
  rw [getAllSystemRoles_eq_settle, getAllSystemRoles_tryBlock_eq]
  simp only [hret, hs, hdata]
  cases hn : envelope.isNullish <;> simp [settle, getAllSystemRoles.catchBlock, SERVER_ERROR]

/-- An instance: a NOT_FOUND envelope without data. -/
theorem getAllSystemRoles_without_data_witness :
    (getAllSystemRoles
      (Services.always (Except.ok (envelopeOf NOT_FOUND JsVal.undefined (JsVal.str "none"))))
      sampleRequest World.empty).1.statusCode = 500 :=
  congrArg Response.statusCode
    (getAllSystemRoles_without_data
      (Services.always (Except.ok (envelopeOf NOT_FOUND JsVal.undefined (JsVal.str "none"))))
      sampleRequest World.empty (envelopeOf NOT_FOUND JsVal.undefined (JsVal.str "none"))
      rfl (fun hh => absurd (JsVal.num.inj hh) (by decide)) rfl)

end SystemRoleControllers
